import Mathlib

/-!
# Verification of the uatu anomaly-detection and permission-gating core

Shallow embedding of the Python sources of the `uatu` repository
(`src/uatu/watcher/models.py`, `detector.py`, `investigator.py`,
`async_handlers.py`, `src/uatu/allowlist.py`, `src/uatu/permissions.py`)
together with theorems settling the specification claims about them.

Conventions of the embedding:
* Python floats are modelled as `ℚ` (all values the code compares are
  produced and consumed exactly; no claim depends on binary rounding).
* `datetime` values are modelled as rational seconds since an epoch;
  `timedelta(hours=1)` becomes `3600`.
* Python dicts/JSON values are modelled by the inductive `Json`.
* Fallible Python code (code that can raise) returns `Except PyErr _`.
* Effects of the permission hook that the spec talks about (invoking the
  approval callback, consulting the allowlist) are recorded in the
  returned `HookOutcome` at exactly the call sites of the source.
-/

namespace Uatu

/-- Python exception values that the modelled code can raise. -/
inductive PyErr where
  | typeError (msg : String)
  | attributeError (msg : String)
  | valueError (msg : String)
  | runtimeError (msg : String)
deriving DecidableEq, Repr

/-- JSON-like values, used for the `details` field of events. -/
inductive Json where
  | null
  | bool (b : Bool)
  | num (q : ℚ)
  | str (s : String)
  | arr (l : List Json)
  | obj (l : List (String × Json))

/-! ## Character and string helpers (Python `str` semantics) -/

/-- The whitespace characters split on by Python `str.split()` / `str.strip()`
(ASCII fragment; the sources only handle ASCII commands). -/
def isPySpace (c : Char) : Bool :=
  c = ' ' || c = '\t' || c = '\n' || c = '\r' || c = '\x0b' || c = '\x0c'

/-- `command.strip()` is non-empty, i.e. some character is not whitespace. -/
def hasNonSpace (s : String) : Bool :=
  s.data.any (fun c => !isPySpace c)

/-- Case-sensitive list prefix test. -/
def csPrefixL : List Char → List Char → Bool
  | [], _ => true
  | _ :: _, [] => false
  | p :: ps, c :: cs => decide (p = c) && csPrefixL ps cs

/-- Case-sensitive substring test; models Python `pat in s`. -/
def csSubstrL (pat : List Char) : List Char → Bool
  | [] => pat.isEmpty
  | c :: rest => csPrefixL pat (c :: rest) || csSubstrL pat rest

/-- ASCII lower-casing of one character (fragment of Python `str.lower` that
the modelled inputs exercise). -/
def lcChar (c : Char) : Char :=
  if 'A' ≤ c ∧ c ≤ 'Z' then Char.ofNat (c.toNat + 32) else c

/-- ASCII upper-casing of one character (fragment of Python `str.upper`). -/
def ucChar (c : Char) : Char :=
  if 'a' ≤ c ∧ c ≤ 'z' then Char.ofNat (c.toNat - 32) else c

/-- Case-insensitive prefix strip: if `pat` is a (case-insensitive) prefix of
`s`, return the remainder of `s`. ASCII case folding, matching
`re.IGNORECASE` on the ASCII patterns of the source. -/
def ciStrip : List Char → List Char → Option (List Char)
  | [], s => some s
  | _ :: _, [] => none
  | p :: ps, c :: cs => if lcChar p = lcChar c then ciStrip ps cs else none

/-- Case-insensitive substring test; models Python `pat in s` modulo case
(equivalently `re.search(re.escape(pat), s, re.IGNORECASE)`). -/
def ciSubstrL (pat : List Char) : List Char → Bool
  | [] => (ciStrip pat []).isSome
  | c :: rest => (ciStrip pat (c :: rest)).isSome || ciSubstrL pat rest

/-- A word character for the regex `\b` boundary (`[A-Za-z0-9_]`; Python's
`\w` is Unicode-aware but the patterns of the source only meet ASCII). -/
def isWordChar (c : Char) : Bool :=
  c.isAlphanum || c = '_'

/-- Does `b` match (case-insensitively) at the very start of `s`, with a word
boundary after it when `wb` is set? -/
def ciHitAt (b : List Char) (wb : Bool) (s : List Char) : Bool :=
  match ciStrip b s with
  | some r =>
    if wb then
      match r with
      | [] => true
      | d :: _ => !isWordChar d
    else true
  | none => false

/-- Does `b` occur in `s` after zero or more non-newline characters?  This is
`re.search` of `.*b` anchored at the start of `s` (`.` does not match
newline). -/
def ciAfterNoNL (b : List Char) (wb : Bool) : List Char → Bool
  | [] => ciHitAt b wb []
  | c :: rest => ciHitAt b wb (c :: rest) || (decide (c ≠ '\n') && ciAfterNoNL b wb rest)

/-- `re.search("a.*b", s, re.IGNORECASE)`: an occurrence of `a` followed, on
the same line, by an occurrence of `b` (with word boundary after `b` when
`wb`). -/
def ciSeq (a b : List Char) (wb : Bool) : List Char → Bool
  | [] => false
  | c :: rest =>
    (match ciStrip a (c :: rest) with
     | some r => ciAfterNoNL b wb r
     | none => false) || ciSeq a b wb rest

/-- First whitespace-delimited token of a string (`s.split()[0]`). -/
def firstToken (s : String) : String :=
  String.mk (((s.data.dropWhile isPySpace).takeWhile (fun c => !isPySpace c)))

/-! ## Data model (`src/uatu/watcher/models.py`) -/

/-- `AnomalyType` enum. -/
inductive AnomalyType where
  | CPU_SPIKE
  | MEMORY_SPIKE
  | MEMORY_LEAK
  | PROCESS_CRASH
  | PROCESS_RESTART
  | CRASH_LOOP
  | NEW_PROCESS
  | PROCESS_DIED
  | PORT_CHANGE
  | ZOMBIE_PROCESS
  | HIGH_LOAD
  | LOG_ERROR
deriving DecidableEq, Repr

/-- `.value` of the `AnomalyType` enum members. -/
def AnomalyType.value : AnomalyType → String
  | .CPU_SPIKE => "cpu_spike"
  | .MEMORY_SPIKE => "memory_spike"
  | .MEMORY_LEAK => "memory_leak"
  | .PROCESS_CRASH => "process_crash"
  | .PROCESS_RESTART => "process_restart"
  | .CRASH_LOOP => "crash_loop"
  | .NEW_PROCESS => "new_process"
  | .PROCESS_DIED => "process_died"
  | .PORT_CHANGE => "port_change"
  | .ZOMBIE_PROCESS => "zombie_process"
  | .HIGH_LOAD => "high_load"
  | .LOG_ERROR => "log_error"

/-- `Severity` as shipped in `models.py`: `class Severity(Enum)` with the four
string-valued members and **no** further methods.  In particular it is a plain
`enum.Enum`, not an `IntEnum`: members support only equality. -/
inductive Severity where
  | INFO
  | WARNING
  | ERROR
  | CRITICAL
deriving DecidableEq, Repr

/-- `.value` of the shipped `Severity` members. -/
def Severity.value : Severity → String
  | .INFO => "info"
  | .WARNING => "warning"
  | .ERROR => "error"
  | .CRITICAL => "critical"

/-- `a < b` on the shipped `Severity`.  A plain `enum.Enum` defines no
ordering, so CPython raises `TypeError` for every pair of members. -/
def severityLt (_a _b : Severity) : Except PyErr Bool :=
  .error (.typeError "unorderable Severity members: plain Enum defines no comparison")

/-- `a >= b` on the shipped `Severity` (also a `TypeError`; this is the
comparison `event.severity >= self.min_severity` executed by
`InvestigationHandler.on_anomaly`). -/
def severityGe (_a _b : Severity) : Except PyErr Bool :=
  .error (.typeError "unorderable Severity members: plain Enum defines no comparison")

/-- `severity.string_value`: the shipped `Severity` has no `string_value`
attribute (the callers in `async_handlers.py` and `investigator.py` expect
one), so the attribute access raises `AttributeError`. -/
def severityStringValue (_s : Severity) : Except PyErr String :=
  .error (.attributeError "Severity object has no attribute string_value")

/-- `ProcessInfo` dataclass. -/
structure ProcessInfo where
  pid : Int
  name : String
  user : String
  cpu_percent : ℚ
  memory_mb : ℚ
  state : String := ""
deriving DecidableEq, Repr

/-- `SystemSnapshot` dataclass (timestamps as rational seconds;
`listening_ports` kept as a list of ints since no claim reads it). -/
structure SystemSnapshot where
  timestamp : ℚ
  cpu_percent : ℚ
  memory_percent : ℚ
  memory_used_mb : ℚ
  memory_total_mb : ℚ
  load_1min : ℚ
  load_5min : ℚ
  load_15min : ℚ
  process_count : Int
  top_cpu_processes : List ProcessInfo := []
  top_memory_processes : List ProcessInfo := []
  listening_ports : List Int := []

/-- `AnomalyEvent` dataclass. -/
structure AnomalyEvent where
  timestamp : ℚ
  type : AnomalyType
  severity : Severity
  message : String
  details : Json := .obj []

/-- `WatcherState` dataclass (the fields `detect_anomalies` reads, plus the
bookkeeping fields of the source). -/
structure WatcherState where
  baseline : Option SystemSnapshot := none
  current : Option SystemSnapshot := none
  history : List SystemSnapshot := []
  max_history : Nat := 100
  events : List AnomalyEvent := []
  process_restart_counts : List (String × Int) := []
  process_last_seen : List (Int × ℚ) := []

/-! ## Anomaly detector (`src/uatu/watcher/detector.py`) -/

/-- Round to the nearest integer, ties to even (IEEE/Python rounding used by
the `:.1f` format specifier). -/
def roundHalfEven (q : ℚ) : Int :=
  let f := ⌊q⌋
  let frac := q - f
  if frac < 1 / 2 then f
  else if 1 / 2 < frac then f + 1
  else if f % 2 = 0 then f else f + 1

/-- Python `f"{q:.1f}"`: one decimal digit.  (No claim inspects a string
produced by this helper; it only keeps event messages concrete.) -/
def fmt1 (q : ℚ) : String :=
  let n := roundHalfEven (q * 10)
  let sign := if n < 0 then "-" else ""
  sign ++ toString (n.natAbs / 10) ++ "." ++ toString (n.natAbs % 10)

/-- The configurable thresholds set in `AnomalyDetector.__init__`. -/
structure AnomalyDetector where
  cpu_spike_threshold : ℚ := 3 / 2
  memory_spike_threshold : ℚ := 13 / 10
  cpu_critical : ℚ := 90
  memory_critical : ℚ := 95
  process_restart_threshold : Int := 3
  restart_window_minutes : Int := 5

/-- A detector with the default thresholds (`AnomalyDetector()`). -/
def defaultDetector : AnomalyDetector := {}

/-- Python `l[-n:]`: the last `n` elements. -/
def lastN (n : Nat) (l : List α) : List α :=
  l.drop (l.length - n)

/-- The consecutive pairs `(l[i-1], l[i])` visited by the
`for i in range(1, len(snapshots))` loop. -/
def consPairs : List α → List (α × α)
  | a :: b :: rest => (a, b) :: consPairs (b :: rest)
  | _ => []

/-- The `increases` counter of `AnomalyDetector._is_memory_increasing`. -/
def memIncreases (snapshots : List SystemSnapshot) : Nat :=
  (consPairs snapshots).countP (fun p => decide (p.2.memory_used_mb > p.1.memory_used_mb))

/-- `AnomalyDetector._is_memory_increasing`.  The literal `0.8` is modelled as
`4/5`; for the list length this code reaches (exactly 6, so a threshold of
`4.8`) no integer lies between the rational and the IEEE evaluation of
`len(snapshots) * 0.8`, so the boolean agrees with CPython. -/
def isMemoryIncreasing (snapshots : List SystemSnapshot) : Bool :=
  if snapshots.length < 3 then false
  else decide ((memIncreases snapshots : ℚ) ≥ (snapshots.length : ℚ) * (4 / 5))

/-- `AnomalyDetector._calculate_memory_growth_rate` (MB per minute). -/
def memoryGrowthRate (snapshots : List SystemSnapshot) : ℚ :=
  match snapshots.head?, snapshots.getLast? with
  | some first, some last =>
    if snapshots.length < 2 then 0
    else
      let memory_delta := last.memory_used_mb - first.memory_used_mb
      let time_delta := (last.timestamp - first.timestamp) / 60
      if time_delta = 0 then 0 else memory_delta / time_delta
  | _, _ => 0

/-- `AnomalyDetector._detect_cpu_anomalies`. -/
def detectCpuAnomalies (d : AnomalyDetector) (state : WatcherState)
    (snapshot : SystemSnapshot) : List AnomalyEvent :=
  match state.baseline with
  | none => []
  | some baseline =>
    if snapshot.cpu_percent ≥ d.cpu_critical then
      [{ timestamp := snapshot.timestamp
         type := .CPU_SPIKE
         severity := .CRITICAL
         message := "CPU usage critical: " ++ fmt1 snapshot.cpu_percent ++ "%"
         details := .obj
           [("current", .num snapshot.cpu_percent),
            ("top_processes", .arr ((snapshot.top_cpu_processes.take 3).map (fun p =>
              .obj [("pid", .num p.pid), ("name", .str p.name), ("cpu", .num p.cpu_percent)])))] }]
    else if snapshot.cpu_percent > baseline.cpu_percent * d.cpu_spike_threshold then
      let top_proc := snapshot.top_cpu_processes.head?
      let culprit_info :=
        match top_proc with
        | some p => " - " ++ p.name ++ " (PID " ++ toString p.pid ++ ")"
        | none => ""
      [{ timestamp := snapshot.timestamp
         type := .CPU_SPIKE
         severity := .WARNING
         message := "CPU spike: " ++ fmt1 snapshot.cpu_percent ++ "% (baseline: " ++
           fmt1 baseline.cpu_percent ++ "%)" ++ culprit_info
         details := .obj
           [("current", .num snapshot.cpu_percent),
            ("baseline", .num baseline.cpu_percent),
            ("increase", .num (snapshot.cpu_percent - baseline.cpu_percent)),
            ("top_process",
              match top_proc with
              | some p => .obj [("pid", .num p.pid), ("name", .str p.name),
                  ("cpu", .num p.cpu_percent)]
              | none => .null)] }]
    else []

/-- The MEMORY_LEAK event built by `AnomalyDetector._detect_memory_anomalies`
once the history window qualifies. -/
def mkMemoryLeakEvent (snapshot : SystemSnapshot) (recent : List SystemSnapshot) :
    AnomalyEvent :=
  let rate_mb_per_min := memoryGrowthRate recent
  let top_mem := snapshot.top_memory_processes.head?
  let culprit_info :=
    match top_mem with
    | some p => " - " ++ p.name ++ " (PID " ++ toString p.pid ++ ")"
    | none => ""
  { timestamp := snapshot.timestamp
    type := .MEMORY_LEAK
    severity := .WARNING
    message := "Memory leak: growing at " ++ fmt1 rate_mb_per_min ++ " MB/min" ++ culprit_info
    details := .obj
      [("growth_rate_mb_per_min", .num rate_mb_per_min),
       ("current_mb", .num snapshot.memory_used_mb),
       ("top_process",
         match top_mem with
         | some p => .obj [("pid", .num p.pid), ("name", .str p.name),
             ("memory_mb", .num p.memory_mb)]
         | none => .null)] }

/-- The critical/spike `if/elif` block of
`AnomalyDetector._detect_memory_anomalies`. -/
def memorySpikeEvents (d : AnomalyDetector) (baseline snapshot : SystemSnapshot) :
    List AnomalyEvent :=
  if snapshot.memory_percent ≥ d.memory_critical then
    [{ timestamp := snapshot.timestamp
       type := .MEMORY_SPIKE
       severity := .CRITICAL
       message := "Memory usage critical: " ++ fmt1 snapshot.memory_percent ++ "%"
       details := .obj
         [("current_percent", .num snapshot.memory_percent),
          ("used_mb", .num snapshot.memory_used_mb),
          ("total_mb", .num snapshot.memory_total_mb)] }]
  else if snapshot.memory_percent > baseline.memory_percent * d.memory_spike_threshold then
    let top_mem := snapshot.top_memory_processes.head?
    let culprit_info :=
      match top_mem with
      | some p => " - " ++ p.name ++ " (PID " ++ toString p.pid ++ ")"
      | none => ""
    [{ timestamp := snapshot.timestamp
       type := .MEMORY_SPIKE
       severity := .WARNING
       message := "Memory spike: " ++ fmt1 snapshot.memory_percent ++ "% (baseline: " ++
         fmt1 baseline.memory_percent ++ "%)" ++ culprit_info
       details := .obj
         [("current", .num snapshot.memory_percent),
          ("baseline", .num baseline.memory_percent),
          ("increase_mb", .num (snapshot.memory_used_mb - baseline.memory_used_mb)),
          ("top_process",
            match top_mem with
            | some p => .obj [("pid", .num p.pid), ("name", .str p.name),
                ("memory_mb", .num p.memory_mb)]
            | none => .null)] }]
  else []

/-- The leak block of `AnomalyDetector._detect_memory_anomalies`:
`if len(state.history) >= 6` take the last six samples and append a leak
event when `_is_memory_increasing` holds of them. -/
def memoryLeakEvents (state : WatcherState) (snapshot : SystemSnapshot) :
    List AnomalyEvent :=
  if 6 ≤ state.history.length then
    if isMemoryIncreasing (lastN 6 state.history) then
      [mkMemoryLeakEvent snapshot (lastN 6 state.history)]
    else []
  else []

/-- `AnomalyDetector._detect_memory_anomalies`: the critical/spike `if/elif`
followed by the independent leak check, appended in source order. -/
def detectMemoryAnomalies (d : AnomalyDetector) (state : WatcherState)
    (snapshot : SystemSnapshot) : List AnomalyEvent :=
  match state.baseline with
  | none => []
  | some baseline =>
    memorySpikeEvents d baseline snapshot ++ memoryLeakEvents state snapshot

/-- The concatenation `snapshot.top_cpu_processes + snapshot.top_memory_processes`
that `_detect_process_anomalies` scans. -/
def topProcs (s : SystemSnapshot) : List ProcessInfo :=
  s.top_cpu_processes ++ s.top_memory_processes

/-- The zombie test of `_detect_process_anomalies`:
`"Z" in proc.state.upper() or "zombie" in proc.state.lower()`. -/
def isZombieState (state : String) : Bool :=
  (state.data.map ucChar).contains 'Z' || csSubstrL "zombie".data (state.data.map lcChar)

/-- `current_pids - previous_pids`.  Python iterates this `set` in an
unspecified order; the embedding fixes first-occurrence order (no claim
depends on the relative order of NEW_PROCESS events). -/
def newPids (snapshot prev : SystemSnapshot) : List Int :=
  (((topProcs snapshot).map ProcessInfo.pid).filter
    (fun pid => !decide (pid ∈ (topProcs prev).map ProcessInfo.pid))).dedup

/-- The NEW_PROCESS event of `_detect_process_anomalies`. -/
def mkNewProcessEvent (snapshot : SystemSnapshot) (proc : ProcessInfo) : AnomalyEvent :=
  { timestamp := snapshot.timestamp
    type := .NEW_PROCESS
    severity := .INFO
    message := "New high-resource process detected: " ++ proc.name ++
      " (PID " ++ toString proc.pid ++ ")"
    details := .obj
      [("pid", .num proc.pid), ("name", .str proc.name),
       ("cpu_percent", .num proc.cpu_percent), ("memory_mb", .num proc.memory_mb)] }

/-- The ZOMBIE_PROCESS event of `_detect_process_anomalies`. -/
def mkZombieEvent (snapshot : SystemSnapshot) (proc : ProcessInfo) : AnomalyEvent :=
  { timestamp := snapshot.timestamp
    type := .ZOMBIE_PROCESS
    severity := .WARNING
    message := "Zombie process detected: " ++ proc.name ++ " (PID " ++ toString proc.pid ++ ")"
    details := .obj [("pid", .num proc.pid), ("name", .str proc.name)] }

/-- The new-high-resource-process loop of `_detect_process_anomalies`:
for each pid new w.r.t. the previous snapshot, look up its first entry and
emit an event when `proc.cpu_percent > 20 or proc.memory_mb > 500`. -/
def newProcessEvents (snapshot prev : SystemSnapshot) : List AnomalyEvent :=
  (newPids snapshot prev).filterMap (fun pid =>
    match (topProcs snapshot).find? (fun p => decide (p.pid = pid)) with
    | some proc =>
      if proc.cpu_percent > 20 ∨ proc.memory_mb > 500 then
        some (mkNewProcessEvent snapshot proc)
      else none
    | none => none)

/-- The zombie loop of `_detect_process_anomalies`: one event per entry of the
concatenated top lists whose state matches the zombie test. -/
def zombieEvents (snapshot : SystemSnapshot) : List AnomalyEvent :=
  (topProcs snapshot).filterMap (fun proc =>
    if isZombieState proc.state then some (mkZombieEvent snapshot proc) else none)

/-- `AnomalyDetector._detect_process_anomalies`: nothing is detected without a
previous `current` snapshot. -/
def detectProcessAnomalies (_d : AnomalyDetector) (state : WatcherState)
    (snapshot : SystemSnapshot) : List AnomalyEvent :=
  match state.current with
  | none => []
  | some prev => newProcessEvents snapshot prev ++ zombieEvents snapshot

/-- `AnomalyDetector.detect_anomalies`. -/
def detectAnomalies (d : AnomalyDetector) (state : WatcherState)
    (snapshot : SystemSnapshot) : List AnomalyEvent :=
  match state.baseline with
  | none => []
  | some _ =>
    detectCpuAnomalies d state snapshot ++ detectMemoryAnomalies d state snapshot ++
      detectProcessAnomalies d state snapshot

/-! ## Allowlist (`src/uatu/allowlist.py`) -/

/-- Allowlist entry types (`"base" | "exact" | "pattern"`). -/
inductive EntryType where
  | base
  | exact
  | pattern
deriving DecidableEq, Repr

/-- One entry of the persisted allowlist.  The `added` wall-clock timestamp of
the source is carried but never read by any code path a claim mentions. -/
structure AllowEntry where
  pattern : String
  type : EntryType
  added : String := ""
deriving DecidableEq, Repr

/-- `AllowlistManager.SAFE_BASE_COMMANDS`. -/
def SAFE_BASE_COMMANDS : List String :=
  ["top", "ps", "df", "free", "uptime", "vm_stat", "vmstat", "iostat",
   "netstat", "lsof", "who", "w", "last", "dmesg", "journalctl"]

/-- `AllowlistManager.BLOCKED_NETWORK_COMMANDS`. -/
def BLOCKED_NETWORK_COMMANDS : List String :=
  ["curl", "wget", "nc", "ssh", "scp", "rsync", "ftp", "telnet"]

/-- `AllowlistManager.get_base_command`:
`command.split()[0] if command and command.strip() else ""`. -/
def getBaseCommand (command : String) : String :=
  if hasNonSpace command then firstToken command else ""

/-- Predicate of the `is_allowed` loop body: does `entry` match `command`? -/
def entryMatches (command : String) (entry : AllowEntry) : Bool :=
  match entry.type with
  | .base => decide (getBaseCommand command = entry.pattern)
  | .exact => decide (command = entry.pattern)
  | .pattern =>
    decide (command = entry.pattern) || (entry.pattern ++ " ").isPrefixOf command

/-- `AllowlistManager.is_allowed` over the in-memory `commands` list. -/
def isAllowed (entries : List AllowEntry) (command : String) : Bool :=
  if !hasNonSpace command then false
  else entries.any (entryMatches command)

/-- `AllowlistManager.add_command` over the in-memory `commands` list.
Raises `ValueError` on empty/whitespace input; otherwise auto-detects the
entry type when none is given, is a no-op on a duplicate `(pattern, type)`
pair, and appends the new entry otherwise (the `added` timestamp of the
source is wall-clock and is abstracted to `""`). -/
def addCommand (entries : List AllowEntry) (command : String)
    (entry_type : Option EntryType) : Except PyErr (List AllowEntry) :=
  if !hasNonSpace command then
    .error (.valueError "Command cannot be empty")
  else
    let p : EntryType × String :=
      match entry_type with
      | none =>
        let base := getBaseCommand command
        if base ∈ SAFE_BASE_COMMANDS then (.base, base) else (.exact, command)
      | some t => (t, command)
    if entries.any (fun e => decide (e.pattern = p.2) && decide (e.type = p.1)) then
      .ok entries
    else
      .ok (entries ++ [{ pattern := p.2, type := p.1, added := "" }])

/-! ## Permission gate (`src/uatu/permissions.py`) -/

/-- Does `PermissionHandler.pre_tool_use_hook` treat the tool as bash?
Source: it returns `{}` early iff `tool_name != "Bash" and "bash" not in
tool_name.lower()`. -/
def isBashTool (tool_name : String) : Bool :=
  decide (tool_name = "Bash") || csSubstrL "bash".data (tool_name.data.map lcChar)

/-- `AllowlistManager.SUSPICIOUS_PATTERNS`, compiled to string predicates.
The regexes are searched with `re.IGNORECASE`; `.` does not match a newline;
`\b` is a word boundary. -/
def matchesSuspicious (command : String) : Bool :=
  let cs := command.data
  ciSeq ['|'] "curl".data false cs ||
  ciSeq ['|'] "wget".data false cs ||
  ciSeq ['|'] "nc".data true cs ||
  ciSeq ['|'] "ssh".data false cs ||
  ciSeq "grep".data "password".data false cs ||
  ciSeq "grep".data "secret".data false cs ||
  ciSeq "grep".data "key".data false cs ||
  ciSubstrL "base64".data cs ||
  ciSubstrL "xxd".data cs ||
  ciSubstrL "$(".data cs

/-- The relevant environment settings read via `get_settings()`. -/
structure Settings where
  uatu_read_only : Bool
  uatu_allow_network : Bool
  uatu_require_approval : Bool
deriving DecidableEq, Repr

/-- A `PermissionHandler` at the moment of one hook call: its settings, the
in-memory allowlist, and the behaviour of `get_approval_callback` on this
call (`none` = no callback configured; `some (.error e)` = the callback
raises; `some (.ok (approved, add_to_allowlist))` = it returns). -/
structure Gate where
  settings : Settings
  allowlist : List AllowEntry
  callback : Option (Except PyErr (Bool × Bool))

/-- The dictionaries `pre_tool_use_hook` returns: `{}`, an allow decision
with a `message`, or a deny decision with a `permissionDecisionReason`. -/
inductive HookResponse where
  | empty
  | allow (message : String)
  | deny (reason : String)
deriving DecidableEq, Repr

/-- Result of one `pre_tool_use_hook` call: the returned value (or the
propagated exception), the allowlist afterwards, and whether the approval
callback was invoked / the allowlist was consulted via `is_allowed`. -/
structure HookOutcome where
  result : Except PyErr HookResponse
  allowlist : List AllowEntry
  callbackInvoked : Bool
  allowlistQueried : Bool
deriving Repr

/-- `PermissionHandler.pre_tool_use_hook`.  Straight-line translation of the
source; the two trace booleans are set exactly where the source calls
`self.get_approval_callback(...)` and `self.allowlist.is_allowed(...)`.
Note the source contains no `try/except`: an exception raised by the
callback or by `add_command` propagates. -/
def preToolUseHook (g : Gate) (tool_name command _description : String) : HookOutcome :=
  if !isBashTool tool_name then
    { result := .ok .empty, allowlist := g.allowlist
      callbackInvoked := false, allowlistQueried := false }
  else if g.settings.uatu_read_only then
    { result := .ok (.deny "Bash commands disabled by UATU_READ_ONLY setting")
      allowlist := g.allowlist, callbackInvoked := false, allowlistQueried := false }
  else if decide (getBaseCommand command ∈ BLOCKED_NETWORK_COMMANDS) &&
      !g.settings.uatu_allow_network then
    { result := .ok (.deny ("Network command \x27" ++ getBaseCommand command ++
        "\x27 blocked for security. Set UATU_ALLOW_NETWORK=true to override (not recommended)."))
      allowlist := g.allowlist, callbackInvoked := false, allowlistQueried := false }
  else
    -- `is_allowed` runs iff no suspicious pattern matched and
    -- `UATU_REQUIRE_APPROVAL` is off (Python short-circuit `and`).
    let queried := !matchesSuspicious command && !g.settings.uatu_require_approval
    if queried && isAllowed g.allowlist command then
      { result := .ok (.allow "Command auto-allowed (allowlisted)")
        allowlist := g.allowlist, callbackInvoked := false, allowlistQueried := queried }
    else
      match g.callback with
      | none =>
        { result := .ok (.deny "No approval callback configured")
          allowlist := g.allowlist, callbackInvoked := false, allowlistQueried := queried }
      | some (.error e) =>
        { result := .error e, allowlist := g.allowlist
          callbackInvoked := true, allowlistQueried := queried }
      | some (.ok (approved, add_to_allowlist)) =>
        if !approved then
          { result := .ok (.deny "User declined to execute bash command")
            allowlist := g.allowlist, callbackInvoked := true, allowlistQueried := queried }
        else if add_to_allowlist then
          match addCommand g.allowlist command none with
          | .error e =>
            { result := .error e, allowlist := g.allowlist
              callbackInvoked := true, allowlistQueried := queried }
          | .ok allowlist' =>
            let base_cmd := getBaseCommand command
            if decide (base_cmd ∈ SAFE_BASE_COMMANDS) then
              { result := .ok (.allow ("Command allowed and \x27" ++ base_cmd ++
                  "\x27 added to allowlist"))
                allowlist := allowlist', callbackInvoked := true, allowlistQueried := queried }
            else
              { result := .ok (.allow "Command allowed and added to allowlist (exact match)")
                allowlist := allowlist', callbackInvoked := true, allowlistQueried := queried }
        else
          { result := .ok (.allow "Command allowed")
            allowlist := g.allowlist, callbackInvoked := true, allowlistQueried := queried }

/-! ## Investigation cache and investigator (`src/uatu/watcher/investigator.py`) -/

/-- One value of the `InvestigationCache` dict. -/
structure CacheEntry where
  timestamp : ℚ
  event_type : String
  event_message : String
  investigation : String
  count : Int
deriving DecidableEq, Repr

/-- The in-memory cache dict, keyed by fingerprint. -/
abbrev Cache := List (String × CacheEntry)

/-- `InvestigationCache.get_cache_key`: the source fingerprints
`f"{event.type.value}:{event.message}"` through `md5(...)[:16]`.  The digest
is modelled by the digested string itself — an injective stand-in; every
claim depends only on equality of keys for equal `type`/`message` pairs. -/
def cacheKey (event : AnomalyEvent) : String :=
  event.type.value ++ ":" ++ event.message

/-- `InvestigationCache.get`: entry present and at most one hour old. -/
def cacheGet (now : ℚ) (cache : Cache) (event : AnomalyEvent) : Option CacheEntry :=
  match List.lookup (cacheKey event) cache with
  | none => none
  | some cached => if now - cached.timestamp > 3600 then none else some cached

/-- `InvestigationCache.set`: upsert, with
`count = self.cache.get(key, {}).get("count", 0) + 1`. -/
def cacheSet (now : ℚ) (cache : Cache) (event : AnomalyEvent)
    (investigation : String) : Cache :=
  let key := cacheKey event
  let newEntry : CacheEntry :=
    { timestamp := now
      event_type := event.type.value
      event_message := event.message
      investigation := investigation
      count := (((List.lookup key cache).map CacheEntry.count).getD 0) + 1 }
  if (List.lookup key cache).isSome then
    cache.map (fun p => if p.1 = key then (key, newEntry) else p)
  else
    cache ++ [(key, newEntry)]

/-- The `"analysis"/"cached"/"cache_count"` dict `Investigator.investigate`
returns. -/
structure InvResult where
  analysis : String
  cached : Bool
  cache_count : Int
deriving DecidableEq, Repr

/-- Result of one `Investigator.investigate` call: the returned dict (or the
propagated exception), the cache afterwards, and whether the LLM provider
(`query`) was called. -/
structure InvestigateOut where
  result : Except PyErr InvResult
  cache : Cache
  providerCalled : Bool

/-- `Investigator.investigate` at time `now`, with `providerText` standing
for the analysis text the provider would stream back.  On a cache miss the
source first builds the prompt, which evaluates
`event.severity.string_value` — an attribute the shipped `Severity` does not
have — so the miss path raises `AttributeError` before calling the
provider. -/
def investigate (now : ℚ) (cache : Cache) (event : AnomalyEvent)
    (providerText : String) : InvestigateOut :=
  match cacheGet now cache event with
  | some cached =>
    let r : InvResult :=
      { analysis := cached.investigation, cached := true, cache_count := cached.count }
    { result := .ok r, cache := cache, providerCalled := false }
  | none =>
    match severityStringValue event.severity with
    | .error e => { result := .error e, cache := cache, providerCalled := false }
    | .ok _ =>
      let r : InvResult := { analysis := providerText, cached := false, cache_count := 1 }
      { result := .ok r, cache := cacheSet now cache event providerText
        providerCalled := true }

/-- `InvestigationHandler.on_anomaly` (`async_handlers.py`): enqueue the
event iff `event.severity >= self.min_severity` — a comparison the shipped
plain-`Enum` `Severity` does not support. -/
def onAnomaly (min_severity : Severity) (queue : List AnomalyEvent)
    (event : AnomalyEvent) : Except PyErr (List AnomalyEvent) :=
  match severityGe event.severity min_severity with
  | .error e => .error e
  | .ok b => if b then .ok (queue ++ [event]) else .ok queue

/-! ## Concrete sample data used by witnesses and counterexamples -/

/-- Snapshot constructor for concrete test data (loads and process count are
immaterial to every claim). -/
def mkSnap (ts cpu memPct usedMb : ℚ) (cpuProcs memProcs : List ProcessInfo) :
    SystemSnapshot :=
  { timestamp := ts, cpu_percent := cpu, memory_percent := memPct,
    memory_used_mb := usedMb, memory_total_mb := 16000, load_1min := 1,
    load_5min := 1, load_15min := 1, process_count := 100,
    top_cpu_processes := cpuProcs, top_memory_processes := memProcs }

/-- A process-free snapshot with the given timestamp, cpu%, memory% and
memory-used values. -/
def plainSnap (ts cpu memPct usedMb : ℚ) : SystemSnapshot :=
  mkSnap ts cpu memPct usedMb [] []

/-- Process constructor for concrete test data. -/
def mkProc (pid : Int) (name : String) (cpu mem : ℚ) (state : String) : ProcessInfo :=
  { pid := pid, name := name, user := "u", cpu_percent := cpu, memory_mb := mem,
    state := state }

/-- A concrete WARNING event (used to exercise the severity comparison and
the investigation pipeline). -/
def sampleWarningEvent : AnomalyEvent :=
  { timestamp := 0, type := .CPU_SPIKE, severity := .WARNING,
    message := "CPU spike detected", details := .obj [] }

/-- Six-sample history whose consecutive memory deltas are
`+1, +1, +1, +1, -1`: four of the five deltas (80 percent) are strictly
positive. -/
def fourOfFiveWindow : List SystemSnapshot :=
  [plainSnap 0 10 50 100, plainSnap 10 10 50 101, plainSnap 20 10 50 102,
   plainSnap 30 10 50 103, plainSnap 40 10 50 104, plainSnap 50 10 50 103]

/-- Watcher state holding `fourOfFiveWindow` with a learned baseline. -/
def fourOfFiveState : WatcherState :=
  { baseline := some (plainSnap 0 10 50 1000), history := fourOfFiveWindow }

/-- Six-sample history with strictly increasing memory. -/
def increasingWindow : List SystemSnapshot :=
  [plainSnap 0 10 50 8000, plainSnap 10 10 50 8500, plainSnap 20 10 50 9000,
   plainSnap 30 10 50 9500, plainSnap 40 10 50 10000, plainSnap 50 10 50 10500]

/-- Watcher state holding `increasingWindow` with a learned baseline. -/
def increasingState : WatcherState :=
  { baseline := some (plainSnap 0 10 50 1000), history := increasingWindow }

/-- Baseline used by the C5 scenario (cpu 70, memory 50 percent). -/
def c5Baseline : SystemSnapshot := plainSnap 0 70 50 1000

/-- Snapshot with cpu 95: below `1.5 × baseline.cpu = 105` yet at or above
the absolute critical threshold 90. -/
def c5Snap : SystemSnapshot := plainSnap 1 95 50 1000

/-- State for the C5 scenario. -/
def c5State : WatcherState := { baseline := some c5Baseline }

/-- A zombie process (state `"Z"`). -/
def zombieProc : ProcessInfo := mkProc 7 "zombie_app" 0 1 "Z"

/-- Snapshot whose top-cpu list holds exactly one zombie process. -/
def zombieSnap : SystemSnapshot := mkSnap 1 10 50 1000 [zombieProc] []

/-- State with a baseline but no previous `current` snapshot. -/
def noCurrentState : WatcherState :=
  { baseline := some (plainSnap 0 10 50 1000), current := none }

/-- State with a baseline and a (process-free) previous `current` snapshot. -/
def withCurrentState : WatcherState :=
  { baseline := some (plainSnap 0 10 50 1000), current := some (plainSnap 0 10 50 1000) }

/-- A read-only gate with a configured callback and an allowlisted command
(fields: settings ⟨read_only, allow_network, require_approval⟩, allowlist,
callback). -/
def readOnlyGate : Gate :=
  ⟨⟨true, false, false⟩, [⟨"ls -la", .exact, ""⟩], some (.ok (true, false))⟩

/-- A read-only gate with no callback and an empty allowlist. -/
def readOnlyBareGate : Gate := ⟨⟨true, false, true⟩, [], none⟩

/-- A gate (read-only off, approval required) whose callback raises
`RuntimeError("boom")`. -/
def raisingCallbackGate : Gate := ⟨⟨false, false, true⟩, [], some (.error (.runtimeError "boom"))⟩

/-- A gate with approval not required, an allowlisted suspicious command and
no callback configured. -/
def suspiciousAllowlistedGate : Gate :=
  ⟨⟨false, false, false⟩, [⟨"cat /etc/passwd | base64", .exact, ""⟩], none⟩

/-- A state whose snapshot stays within every threshold (baseline cpu 40,
memory 50; empty history, no previous snapshot). -/
def calmState : WatcherState := { baseline := some (plainSnap 0 40 50 1000) }

/-- A snapshot below all spike and critical thresholds for `calmState`. -/
def calmSnap : SystemSnapshot := plainSnap 1 50 60 1100

/-! ## Helper lemmas -/

theorem hasNonSpace_eq_false_of_all_space {s : String}
    (h : s.data.all isPySpace = true) : hasNonSpace s = false := by
  unfold hasNonSpace
  rw [List.any_eq_false]
  intro c hc
  have hcs := List.all_eq_true.mp h c hc
  simp [hcs]

theorem isAllowed_of_mem {entries : List AllowEntry} {x : String} {e : AllowEntry}
    (hx : hasNonSpace x = true) (he : e ∈ entries) (hm : entryMatches x e = true) :
    isAllowed entries x = true := by
  unfold isAllowed
  rw [hx]
  simp only [Bool.not_true, Bool.false_eq_true, if_false]
  exact List.any_eq_true.mpr ⟨e, he, hm⟩

/-! ## Claims -/

/-- C10: a command that is empty or all-whitespace is never allowed by
`is_allowed`, whatever the allowlist contains, and `add_command` rejects it
with `ValueError`. -/
theorem C10_empty_command_rejected (entries : List AllowEntry) (x : String)
    (t : Option EntryType) (h : x.data.all isPySpace = true) :
    isAllowed entries x = false ∧
    addCommand entries x t = .error (.valueError "Command cannot be empty") := by
  have hns := hasNonSpace_eq_false_of_all_space h
  constructor
  · unfold isAllowed
    rw [hns]
    simp
  · unfold addCommand
    rw [hns]
    simp

/-- C10 witness: the whitespace command `" "` is rejected even when the
allowlist holds an entry. -/
theorem C10_witness :
    (" ".data.all isPySpace = true) ∧
    isAllowed [{ pattern := "top", type := .base, added := "" }] " " = false ∧
    addCommand [{ pattern := "top", type := .base, added := "" }] " " none =
      .error (.valueError "Command cannot be empty") := by
  refine ⟨by decide, ?_⟩
  have h := C10_empty_command_rejected
    [{ pattern := "top", type := .base, added := "" }] " " none (by decide)
  exact h

/-- C9: for a non-empty, non-whitespace command, `add_command` with
auto-selected entry type succeeds and `is_allowed` then accepts the very
same command. -/
theorem C9_add_then_allowed (entries : List AllowEntry) (x : String)
    (hx : hasNonSpace x = true) :
    ∃ entries', addCommand entries x none = .ok entries' ∧ isAllowed entries' x = true := by
  unfold addCommand
  rw [hx]
  simp only [Bool.not_true, Bool.false_eq_true, if_false]
  by_cases hb : getBaseCommand x ∈ SAFE_BASE_COMMANDS
  · simp only [hb, if_true]
    by_cases hdup : entries.any
        (fun e => decide (e.pattern = getBaseCommand x) && decide (e.type = EntryType.base)) = true
    · rw [if_pos hdup]
      refine ⟨entries, rfl, ?_⟩
      obtain ⟨e, he, hpe⟩ := List.any_eq_true.mp hdup
      rw [Bool.and_eq_true, decide_eq_true_eq, decide_eq_true_eq] at hpe
      refine isAllowed_of_mem hx he ?_
      unfold entryMatches
      rw [hpe.2, hpe.1]
      simp
    · rw [if_neg hdup]
      refine ⟨_, rfl, ?_⟩
      refine isAllowed_of_mem hx (List.mem_append_right _ (List.mem_singleton.mpr rfl)) ?_
      unfold entryMatches
      simp
  · simp only [hb, if_false]
    by_cases hdup : entries.any
        (fun e => decide (e.pattern = x) && decide (e.type = EntryType.exact)) = true
    · rw [if_pos hdup]
      refine ⟨entries, rfl, ?_⟩
      obtain ⟨e, he, hpe⟩ := List.any_eq_true.mp hdup
      rw [Bool.and_eq_true, decide_eq_true_eq, decide_eq_true_eq] at hpe
      refine isAllowed_of_mem hx he ?_
      unfold entryMatches
      rw [hpe.2, hpe.1]
      simp
    · rw [if_neg hdup]
      refine ⟨_, rfl, ?_⟩
      refine isAllowed_of_mem hx (List.mem_append_right _ (List.mem_singleton.mpr rfl)) ?_
      unfold entryMatches
      simp

/-- C9 witness: adding `"top -bn1"` to an empty allowlist (auto type `base`)
makes the command allowed. -/
theorem C9_witness :
    hasNonSpace "top -bn1" = true ∧
    ∃ entries', addCommand [] "top -bn1" none = .ok entries' ∧
      isAllowed entries' "top -bn1" = true :=
  ⟨by decide, C9_add_then_allowed [] "top -bn1" (by decide)⟩

/-- C2 (code bug): the shipped `Severity` is a plain string-valued `Enum`
with no ordering, so `Severity.INFO < Severity.WARNING` raises `TypeError`
instead of evaluating, and `InvestigationHandler.on_anomaly` raises on its
`event.severity >= self.min_severity` check; the `string_value` attribute
used for serialization is likewise missing.  The repository's own tests
(`TestSeverityComparison` in `test_investigation_logging.py`) require the
comparisons and string forms the claim states. -/
theorem C2_severity_comparison_raises :
    severityLt .INFO .WARNING =
      .error (.typeError "unorderable Severity members: plain Enum defines no comparison") ∧
    onAnomaly .WARNING [] sampleWarningEvent =
      .error (.typeError "unorderable Severity members: plain Enum defines no comparison") ∧
    severityStringValue .INFO =
      .error (.attributeError "Severity object has no attribute string_value") :=
  ⟨rfl, rfl, rfl⟩

/-- C3 (code bug): on a cache miss `Investigator.investigate` builds the
provider prompt, which reads `event.severity.string_value` — missing on the
shipped `Severity` — so the investigation raises `AttributeError` before the
provider is ever called and no audit record can be written; the claimed
one-provider-call/two-records behaviour is unreachable.  The third conjunct
shows the further divergence: even on a genuine cache hit the stored count is
returned unchanged (`cache_count = 1`, not 2), because only
`InvestigationCache.set` — reached on misses alone — increments it. -/
theorem C3_investigation_crashes_before_provider :
    (investigate 0 [] sampleWarningEvent "analysis").result =
      .error (.attributeError "Severity object has no attribute string_value") ∧
    (investigate 0 [] sampleWarningEvent "analysis").providerCalled = false ∧
    (investigate 10 (cacheSet 0 [] sampleWarningEvent "analysis")
        sampleWarningEvent "other").result =
      .ok { analysis := "analysis", cached := true, cache_count := 1 } :=
  ⟨rfl, rfl, by with_unfolding_all rfl⟩

/-- C7 (amended): with `UATU_READ_ONLY` set, every bash command is denied
with the literal reason `"Bash commands disabled by UATU_READ_ONLY setting"`,
the approval callback is not invoked, the allowlist is not consulted, and
the allowlist is left unchanged. -/
theorem C7_read_only_denies_all (g : Gate) (tool_name command description : String)
    (hro : g.settings.uatu_read_only = true) (hb : isBashTool tool_name = true) :
    preToolUseHook g tool_name command description =
      { result := .ok (.deny "Bash commands disabled by UATU_READ_ONLY setting")
        allowlist := g.allowlist, callbackInvoked := false, allowlistQueried := false } := by
  unfold preToolUseHook
  rw [hb, hro]
  simp

/-- C7 witness: concrete read-only gate with a configured callback and an
allowlisted command; the hook still returns the read-only deny without
invoking the callback or consulting the allowlist. -/
theorem C7_witness :
    readOnlyGate.settings.uatu_read_only = true ∧
    isBashTool "Bash" = true ∧
    preToolUseHook readOnlyGate "Bash" "ls -la" "List files" =
      { result := .ok (.deny "Bash commands disabled by UATU_READ_ONLY setting")
        allowlist := readOnlyGate.allowlist
        callbackInvoked := false, allowlistQueried := false } :=
  ⟨rfl, by decide,
    C7_read_only_denies_all readOnlyGate "Bash" "ls -la" "List files" rfl (by decide)⟩

/-- C7 counterexample: the deny reason of the read-only branch does not
contain the substring `"read-only"` (not even case-insensitively): the code
says `"Bash commands disabled by UATU_READ_ONLY setting"`. -/
theorem C7_counterexample :
    (preToolUseHook readOnlyBareGate "Bash" "ls -la" "").result =
      .ok (.deny "Bash commands disabled by UATU_READ_ONLY setting") ∧
    ciSubstrL "read-only".data "Bash commands disabled by UATU_READ_ONLY setting".data =
      false :=
  ⟨rfl, by decide⟩

/-- C1 (amended): `pre_tool_use_hook` contains no exception handler, so an
exception raised by the approval callback propagates to the caller whenever
control reaches the callback (bash tool, read-only off, not denied as a
network command, not auto-allowed); the gate does not convert it into a deny
decision. -/
theorem C1_callback_exception_propagates (g : Gate) (tool_name command description : String)
    (e : PyErr)
    (hb : isBashTool tool_name = true)
    (hro : g.settings.uatu_read_only = false)
    (hnet : (decide (getBaseCommand command ∈ BLOCKED_NETWORK_COMMANDS) &&
      !g.settings.uatu_allow_network) = false)
    (hauto : ((!matchesSuspicious command && !g.settings.uatu_require_approval) &&
      isAllowed g.allowlist command) = false)
    (hcb : g.callback = some (.error e)) :
    (preToolUseHook g tool_name command description).result = .error e := by
  unfold preToolUseHook
  simp [hb, hro, hnet, hauto, hcb]

/-- C1 witness: a gate whose callback raises `RuntimeError("boom")` on an
ordinary `ls -la` call propagates exactly that error. -/
theorem C1_witness :
    isBashTool "Bash" = true ∧
    raisingCallbackGate.settings.uatu_read_only = false ∧
    (preToolUseHook raisingCallbackGate "Bash" "ls -la" "List files").result =
      .error (.runtimeError "boom") :=
  ⟨by decide, rfl,
    C1_callback_exception_propagates raisingCallbackGate "Bash" "ls -la" "List files"
      (.runtimeError "boom") (by decide) rfl (by decide) (by decide) rfl⟩

/-- C1 counterexample: at a concrete hook input whose callback raises, the
gate propagates the exception — the returned value is the error itself, not
a deny decision with reason "internal error" (it is no deny decision at
all). -/
theorem C1_counterexample :
    (preToolUseHook raisingCallbackGate "Bash" "ls -la" "").result =
      .error (.runtimeError "boom") ∧
    ∀ reason : String,
      (preToolUseHook raisingCallbackGate "Bash" "ls -la" "").result ≠
        .ok (.deny reason) := by
  constructor
  · rfl
  · intro reason h
    rw [show (preToolUseHook raisingCallbackGate "Bash" "ls -la" "").result =
      .error (.runtimeError "boom") from rfl] at h
    exact Except.noConfusion h

theorem ok_allow_added_ne (base : String) :
    (Except.ok (HookResponse.allow ("Command allowed and \x27" ++ base ++
        "\x27 added to allowlist")) : Except PyErr HookResponse) ≠
      .ok (.allow "Command auto-allowed (allowlisted)") := by
  intro h
  have h1 := Except.ok.inj h
  have h2 := HookResponse.allow.inj h1
  have hl := congrArg String.length h2
  rw [String.length_append, String.length_append] at hl
  have e1 : ("Command allowed and \x27" : String).length = 21 := rfl
  have e2 : ("\x27 added to allowlist" : String).length = 20 := rfl
  have e3 : ("Command auto-allowed (allowlisted)" : String).length = 34 := rfl
  rw [e1, e2, e3] at hl
  omega

/-- C8: a command matching a suspicious pattern is never auto-allowed from
the allowlist — `is_allowed` is not even consulted — and, when the earlier
decisive rules (non-bash tool, read-only, blocked network command) do not
fire, the decision is delegated: deny when no approval callback is
configured, otherwise the callback is invoked. -/
theorem C8_suspicious_never_autoallowed (g : Gate) (tool_name command description : String)
    (hsusp : matchesSuspicious command = true) :
    (preToolUseHook g tool_name command description).allowlistQueried = false ∧
    (preToolUseHook g tool_name command description).result ≠
      .ok (.allow "Command auto-allowed (allowlisted)") ∧
    (isBashTool tool_name = true → g.settings.uatu_read_only = false →
      (decide (getBaseCommand command ∈ BLOCKED_NETWORK_COMMANDS) &&
        !g.settings.uatu_allow_network) = false →
      (g.callback = none →
        (preToolUseHook g tool_name command description).result =
          .ok (.deny "No approval callback configured")) ∧
      (∀ cb, g.callback = some cb →
        (preToolUseHook g tool_name command description).callbackInvoked = true)) := by
  unfold preToolUseHook
  simp only [hsusp, Bool.not_true, Bool.false_and, Bool.false_eq_true, if_false]
  refine ⟨?_, ?_, ?_⟩
  · repeat' split
    all_goals rfl
  · repeat' split
    all_goals first
      | exact ok_allow_added_ne _
      | simp
  · intro hbt hro hnet
    simp only [hbt, Bool.not_true, Bool.false_eq_true, if_false, hro, hnet]
    constructor
    · intro hnone
      rw [hnone]
    · intro cb hcb
      rw [hcb]
      repeat' split
      all_goals simp_all

/-- C8 witness: `"cat /etc/passwd | base64"` is allowlisted exactly and
approval is not required, yet the pipe-to-encode pattern forces the
callback path — here no callback is configured, so the command is denied. -/
theorem C8_witness :
    matchesSuspicious "cat /etc/passwd | base64" = true ∧
    isAllowed suspiciousAllowlistedGate.allowlist "cat /etc/passwd | base64" = true ∧
    (preToolUseHook suspiciousAllowlistedGate "Bash" "cat /etc/passwd | base64"
      "").allowlistQueried = false ∧
    (preToolUseHook suspiciousAllowlistedGate "Bash" "cat /etc/passwd | base64" "").result =
      .ok (.deny "No approval callback configured") := by
  refine ⟨by decide, by decide, ?_, ?_⟩
  · exact (C8_suspicious_never_autoallowed suspiciousAllowlistedGate "Bash"
      "cat /etc/passwd | base64" "" (by decide)).1
  · exact ((C8_suspicious_never_autoallowed suspiciousAllowlistedGate "Bash"
      "cat /etc/passwd | base64" "" (by decide)).2.2 (by decide) rfl (by decide)).1 rfl

theorem csPrefixL_append (p r : List Char) : csPrefixL p (p ++ r) = true := by
  induction p with
  | nil => rfl
  | cons a as ih => simp [csPrefixL, ih]

theorem csSubstrL_append_left (pat post : List Char) :
    csSubstrL pat (pat ++ post) = true := by
  cases pat with
  | nil =>
    cases post with
    | nil => rfl
    | cons c r => simp [csSubstrL, csPrefixL]
  | cons a as =>
    have h := csPrefixL_append (a :: as) post
    rw [List.cons_append] at h
    rw [List.cons_append]
    unfold csSubstrL
    rw [h]
    simp

theorem csSubstrL_mono (s pat t : List Char) (h : csSubstrL pat t = true) :
    csSubstrL pat (s ++ t) = true := by
  induction s with
  | nil => simpa using h
  | cons a s' ih => simp [csSubstrL, ih]

theorem chain'_iff_consPairs (R : α → α → Prop) :
    ∀ l : List α, List.Chain' R l ↔ ∀ p ∈ consPairs l, R p.1 p.2
  | [] => by simp [consPairs]
  | [a] => by simp [consPairs]
  | a :: b :: t => by
    rw [List.chain'_cons, chain'_iff_consPairs R (b :: t)]
    simp [consPairs]

theorem consPairs_length : ∀ l : List α, (consPairs l).length = l.length - 1
  | [] => rfl
  | [_] => rfl
  | _ :: b :: t => by
    simp [consPairs, consPairs_length (b :: t)]

theorem lastN_length_of_le {l : List α} {n : Nat} (h : n ≤ l.length) :
    (lastN n l).length = n := by
  simp only [lastN, List.length_drop]
  omega

theorem rat_count_ge_iff (n : Nat) : ((24 / 5 : ℚ) ≤ (n : ℚ)) ↔ 5 ≤ n := by
  constructor
  · intro h
    by_contra hn
    push_neg at hn
    have h4 : n ≤ 4 := by omega
    have hq : (n : ℚ) ≤ 4 := by exact_mod_cast h4
    have hcontr : (24 / 5 : ℚ) ≤ 4 := le_trans h hq
    norm_num at hcontr
  · intro h
    have hq : (5 : ℚ) ≤ (n : ℚ) := by exact_mod_cast h
    calc (24 / 5 : ℚ) ≤ 5 := by norm_num
    _ ≤ (n : ℚ) := hq

/-- With a six-sample window, `_is_memory_increasing` demands `increases ≥
6 × 0.8 = 4.8`, which only all five positive deltas can meet: the test is
equivalent to strict monotonicity of the window. -/
theorem isMemoryIncreasing_six {l : List SystemSnapshot} (h : l.length = 6) :
    isMemoryIncreasing l = true ↔
      List.Chain' (fun a b => a.memory_used_mb < b.memory_used_mb) l := by
  unfold isMemoryIncreasing
  rw [h]
  norm_num
  rw [rat_count_ge_iff (memIncreases l)]
  have hc : (consPairs l).length = 5 := by rw [consPairs_length, h]
  have hle : memIncreases l ≤ 5 := by
    rw [← hc]
    exact List.countP_le_length _
  constructor
  · intro h5
    have heq : memIncreases l = (consPairs l).length := by omega
    have hall := List.countP_eq_length.mp heq
    rw [chain'_iff_consPairs]
    intro p hp
    have := hall p hp
    simpa using this
  · intro hch
    have hall : ∀ p ∈ consPairs l,
        (fun p : SystemSnapshot × SystemSnapshot =>
          decide (p.2.memory_used_mb > p.1.memory_used_mb)) p = true := by
      intro p hp
      have := (chain'_iff_consPairs _ l).mp hch p hp
      simpa using this
    have := List.countP_eq_length.mpr hall
    unfold memIncreases
    omega

theorem memoryLeakEvents_ne_nil_iff (st : WatcherState) (snap : SystemSnapshot) :
    memoryLeakEvents st snap ≠ [] ↔
      6 ≤ st.history.length ∧ isMemoryIncreasing (lastN 6 st.history) = true := by
  unfold memoryLeakEvents
  by_cases h6 : 6 ≤ st.history.length
  · by_cases hinc : isMemoryIncreasing (lastN 6 st.history) = true
    · simp [h6, hinc]
    · simp [h6, hinc]
  · simp [h6]

theorem mem_memoryLeakEvents {st : WatcherState} {snap : SystemSnapshot} {e : AnomalyEvent}
    (he : e ∈ memoryLeakEvents st snap) :
    e = mkMemoryLeakEvent snap (lastN 6 st.history) := by
  unfold memoryLeakEvents at he
  split at he
  · split at he
    · simpa using he
    · simp at he
  · simp at he

theorem mem_detectCpu_type {d : AnomalyDetector} {st : WatcherState}
    {snap : SystemSnapshot} {e : AnomalyEvent} (he : e ∈ detectCpuAnomalies d st snap) :
    e.type = .CPU_SPIKE := by
  unfold detectCpuAnomalies at he
  split at he
  · simp at he
  · split at he
    · simp at he
      subst he
      rfl
    · split at he
      · simp at he
        subst he
        rfl
      · simp at he

theorem mem_memorySpikeEvents_type {d : AnomalyDetector} {b snap : SystemSnapshot}
    {e : AnomalyEvent} (he : e ∈ memorySpikeEvents d b snap) :
    e.type = .MEMORY_SPIKE := by
  unfold memorySpikeEvents at he
  split at he
  · simp at he
    subst he
    rfl
  · split at he
    · simp at he
      subst he
      rfl
    · simp at he

theorem mem_newProcessEvents_type {snap prev : SystemSnapshot} {e : AnomalyEvent}
    (he : e ∈ newProcessEvents snap prev) : e.type = .NEW_PROCESS := by
  unfold newProcessEvents at he
  obtain ⟨pid, _, hf⟩ := List.mem_filterMap.mp he
  split at hf
  · split at hf
    · have := Option.some.inj hf
      subst this
      rfl
    · simp at hf
  · simp at hf

theorem mem_zombieEvents_type {snap : SystemSnapshot} {e : AnomalyEvent}
    (he : e ∈ zombieEvents snap) : e.type = .ZOMBIE_PROCESS := by
  unfold zombieEvents at he
  obtain ⟨p, _, hf⟩ := List.mem_filterMap.mp he
  split at hf
  · have := Option.some.inj hf
    subst this
    rfl
  · simp at hf

theorem filterMap_ite_eq_filter_map (f : α → β) (q : α → Bool) (l : List α) :
    l.filterMap (fun a => if q a then some (f a) else none) = (l.filter q).map f := by
  induction l with
  | nil => rfl
  | cons a t ih =>
    by_cases hq : q a = true
    · simp [List.filterMap_cons, hq, ih]
    · simp [List.filterMap_cons, hq, ih]

theorem filter_leak_eq (d : AnomalyDetector) (st : WatcherState) (snap b : SystemSnapshot)
    (hb : st.baseline = some b) :
    (detectAnomalies d st snap).filter (fun e => decide (e.type = AnomalyType.MEMORY_LEAK)) =
      memoryLeakEvents st snap := by
  have hcpu : (detectCpuAnomalies d st snap).filter
      (fun e => decide (e.type = AnomalyType.MEMORY_LEAK)) = [] :=
    List.filter_eq_nil_iff.mpr (by
      intro e he
      simp [mem_detectCpu_type he])
  have hspike : (memorySpikeEvents d b snap).filter
      (fun e => decide (e.type = AnomalyType.MEMORY_LEAK)) = [] :=
    List.filter_eq_nil_iff.mpr (by
      intro e he
      simp [mem_memorySpikeEvents_type he])
  have hleak : (memoryLeakEvents st snap).filter
      (fun e => decide (e.type = AnomalyType.MEMORY_LEAK)) = memoryLeakEvents st snap :=
    List.filter_eq_self.mpr (by
      intro e he
      rw [mem_memoryLeakEvents he]
      simp [mkMemoryLeakEvent])
  have hproc : (detectProcessAnomalies d st snap).filter
      (fun e => decide (e.type = AnomalyType.MEMORY_LEAK)) = [] := by
    unfold detectProcessAnomalies
    cases hcur : st.current with
    | none => rfl
    | some prev =>
      rw [List.filter_append]
      rw [List.filter_eq_nil_iff.mpr (by
        intro e he
        simp [mem_newProcessEvents_type he])]
      rw [List.filter_eq_nil_iff.mpr (by
        intro e he
        simp [mem_zombieEvents_type he])]
      rfl
  unfold detectAnomalies detectMemoryAnomalies
  rw [hb]
  simp only [List.filter_append]
  rw [hcpu, hspike, hleak, hproc]
  simp

/-- C4 (amended): the memory-leak rule fires exactly when the history holds
at least six samples and **all five** consecutive deltas of the last six
samples are strictly positive (the code compares the count of positive
deltas against 80 percent of the number of *samples*, `6 × 0.8 = 4.8`, which
only five of five deltas can meet — not 80 percent of the five deltas); the
emitted event is MEMORY_LEAK with severity WARNING. -/
theorem C4_leak_rule_fires_iff (st : WatcherState) (snap b : SystemSnapshot)
    (hb : st.baseline = some b) :
    (((detectAnomalies defaultDetector st snap).filter
        (fun e => decide (e.type = AnomalyType.MEMORY_LEAK))) ≠ [] ↔
      6 ≤ st.history.length ∧
        List.Chain' (fun a c => a.memory_used_mb < c.memory_used_mb) (lastN 6 st.history)) ∧
    ∀ e ∈ (detectAnomalies defaultDetector st snap).filter
        (fun e => decide (e.type = AnomalyType.MEMORY_LEAK)),
      e.type = .MEMORY_LEAK ∧ e.severity = .WARNING := by
  have hfe := filter_leak_eq defaultDetector st snap b hb
  constructor
  · rw [hfe, memoryLeakEvents_ne_nil_iff]
    constructor
    · rintro ⟨h6, hinc⟩
      exact ⟨h6, (isMemoryIncreasing_six (lastN_length_of_le h6)).mp hinc⟩
    · rintro ⟨h6, hch⟩
      exact ⟨h6, (isMemoryIncreasing_six (lastN_length_of_le h6)).mpr hch⟩
  · intro e he
    rw [hfe] at he
    rw [mem_memoryLeakEvents he]
    exact ⟨rfl, rfl⟩

/-- C4 witness: a six-sample strictly increasing history fires the rule. -/
theorem C4_witness :
    increasingState.baseline = some (plainSnap 0 10 50 1000) ∧
    ((((detectAnomalies defaultDetector increasingState (plainSnap 50 10 50 10500)).filter
        (fun e => decide (e.type = AnomalyType.MEMORY_LEAK))) ≠ [] ↔
      6 ≤ increasingState.history.length ∧
        List.Chain' (fun a c => a.memory_used_mb < c.memory_used_mb)
          (lastN 6 increasingState.history)) ∧
    ∀ e ∈ (detectAnomalies defaultDetector increasingState (plainSnap 50 10 50 10500)).filter
        (fun e => decide (e.type = AnomalyType.MEMORY_LEAK)),
      e.type = .MEMORY_LEAK ∧ e.severity = .WARNING) :=
  ⟨rfl, C4_leak_rule_fires_iff increasingState (plainSnap 50 10 50 10500)
    (plainSnap 0 10 50 1000) rfl⟩

/-- C4 counterexample: with six samples whose deltas are `+1,+1,+1,+1,-1` —
four of five (80 percent) strictly positive, satisfying the claim's firing
condition — the rule does not fire. -/
theorem C4_counterexample :
    6 ≤ fourOfFiveState.history.length ∧
    ((4 : ℚ) / 5) * ((consPairs (lastN 6 fourOfFiveState.history)).length : ℚ) ≤
      ((consPairs (lastN 6 fourOfFiveState.history)).countP
        (fun p => decide (p.2.memory_used_mb > p.1.memory_used_mb)) : ℚ) ∧
    (detectAnomalies defaultDetector fourOfFiveState (plainSnap 50 10 50 103)).filter
      (fun e => decide (e.type = AnomalyType.MEMORY_LEAK)) = [] :=
  ⟨by decide, by with_unfolding_all decide, by with_unfolding_all rfl⟩

/-- C5 (amended): a snapshot within the spike ratios returns no anomalies,
provided additionally that it is below both absolute critical thresholds
(cpu < 90, memory < 95) and that the history does not satisfy the
memory-leak window condition — cases the claim omits but the detector
checks independently of the baseline ratios. -/
theorem C5_within_thresholds_empty (st : WatcherState) (snap b : SystemSnapshot)
    (hb : st.baseline = some b)
    (hcpu_ratio : snap.cpu_percent ≤ b.cpu_percent * (3 / 2))
    (hmem_ratio : snap.memory_percent ≤ b.memory_percent * (13 / 10))
    (hcpu_crit : snap.cpu_percent < 90)
    (hmem_crit : snap.memory_percent < 95)
    (hleak : (decide (6 ≤ st.history.length) &&
      isMemoryIncreasing (lastN 6 st.history)) = false)
    (hzomb : ∀ p ∈ topProcs snap, isZombieState p.state = false)
    (hnew : ∀ prev, st.current = some prev → ∀ p ∈ topProcs snap,
      p.pid ∉ (topProcs prev).map ProcessInfo.pid →
        p.cpu_percent ≤ 20 ∧ p.memory_mb ≤ 500) :
    detectAnomalies defaultDetector st snap = [] := by
  have hc1 : ¬ (snap.cpu_percent ≥ defaultDetector.cpu_critical) := not_le.mpr hcpu_crit
  have hc2 : ¬ (snap.cpu_percent > b.cpu_percent * defaultDetector.cpu_spike_threshold) :=
    not_lt.mpr hcpu_ratio
  have hm1 : ¬ (snap.memory_percent ≥ defaultDetector.memory_critical) := not_le.mpr hmem_crit
  have hm2 : ¬ (snap.memory_percent > b.memory_percent * defaultDetector.memory_spike_threshold) :=
    not_lt.mpr hmem_ratio
  have hcpu : detectCpuAnomalies defaultDetector st snap = [] := by
    simp only [detectCpuAnomalies, hb]
    rw [if_neg hc1, if_neg hc2]
  have hspike : memorySpikeEvents defaultDetector b snap = [] := by
    unfold memorySpikeEvents
    rw [if_neg hm1, if_neg hm2]
  have hleake : memoryLeakEvents st snap = [] := by
    unfold memoryLeakEvents
    by_cases h6 : 6 ≤ st.history.length
    · rw [decide_eq_true h6, Bool.true_and] at hleak
      rw [if_pos h6, hleak]
      simp
    · rw [if_neg h6]
  have hmem : detectMemoryAnomalies defaultDetector st snap = [] := by
    simp only [detectMemoryAnomalies, hb]
    rw [hspike, hleake]
    rfl
  have hproc : detectProcessAnomalies defaultDetector st snap = [] := by
    unfold detectProcessAnomalies
    cases hcur : st.current with
    | none => rfl
    | some prev =>
      have hnp : newProcessEvents snap prev = [] := by
        unfold newProcessEvents
        apply List.filterMap_eq_nil_iff.mpr
        intro pid hpid
        have hmem2 := List.mem_dedup.mp hpid
        obtain ⟨hin, hnotin⟩ := List.mem_filter.mp hmem2
        cases hf : (topProcs snap).find? (fun p => decide (p.pid = pid)) with
        | none => rfl
        | some proc =>
          have hp1 : proc.pid = pid := by
            have hp0 := List.find?_some hf
            simpa using hp0
          have hp2 : proc ∈ topProcs snap := List.mem_of_find?_eq_some hf
          have hnotin' : proc.pid ∉ (topProcs prev).map ProcessInfo.pid := by
            rw [hp1]
            simpa using hnotin
          obtain ⟨hc20, hm500⟩ := hnew prev hcur proc hp2 hnotin'
          show (if proc.cpu_percent > 20 ∨ proc.memory_mb > 500 then
            some (mkNewProcessEvent snap proc) else none) = none
          rw [if_neg]
          push_neg
          exact ⟨hc20, hm500⟩
      have hz : zombieEvents snap = [] := by
        unfold zombieEvents
        apply List.filterMap_eq_nil_iff.mpr
        intro p hp
        rw [hzomb p hp]
        simp
      show newProcessEvents snap prev ++ zombieEvents snap = []
      rw [hnp, hz]
      rfl
  simp only [detectAnomalies, hb]
  rw [hcpu, hmem, hproc]
  rfl

/-- C5 witness: at baseline cpu 40/memory 50, a snapshot of cpu 50 and
memory 60 (within both ratios and both absolute thresholds, empty history,
no processes) yields no anomalies. -/
theorem C5_witness :
    calmState.baseline = some (plainSnap 0 40 50 1000) ∧
    calmSnap.cpu_percent ≤ (plainSnap 0 40 50 1000).cpu_percent * (3 / 2) ∧
    calmSnap.memory_percent ≤ (plainSnap 0 40 50 1000).memory_percent * (13 / 10) ∧
    detectAnomalies defaultDetector calmState calmSnap = [] := by
  refine ⟨rfl, by with_unfolding_all decide, by with_unfolding_all decide, ?_⟩
  refine C5_within_thresholds_empty calmState calmSnap (plainSnap 0 40 50 1000) rfl
    (by with_unfolding_all decide) (by with_unfolding_all decide)
    (by with_unfolding_all decide) (by with_unfolding_all decide)
    (by decide) ?_ ?_
  · intro p hp
    simp [topProcs, calmSnap, plainSnap, mkSnap] at hp
  · intro prev h
    simp [calmState] at h

/-- C5 counterexample: with baseline cpu 70, a snapshot of cpu 95 satisfies
the claim's premises (95 ≤ 1.5·70 = 105, memory within ratio, no zombie or
new-process condition — there are no processes at all), yet the detector
returns a (critical) CPU event, not the empty list. -/
theorem C5_counterexample :
    c5Snap.cpu_percent ≤ (3 / 2) * c5Baseline.cpu_percent ∧
    c5Snap.memory_percent ≤ (13 / 10) * c5Baseline.memory_percent ∧
    topProcs c5Snap = [] ∧
    (detectAnomalies defaultDetector c5State c5Snap).length = 1 ∧
    detectAnomalies defaultDetector c5State c5Snap ≠ [] := by
  refine ⟨by with_unfolding_all decide, by with_unfolding_all decide, rfl,
    by with_unfolding_all rfl, ?_⟩
  intro h0
  have h1 : (detectAnomalies defaultDetector c5State c5Snap).length = 1 := by
    with_unfolding_all rfl
  rw [h0] at h1
  exact Nat.one_ne_zero h1.symm

theorem zombieEvents_eq (snap : SystemSnapshot) :
    zombieEvents snap =
      ((topProcs snap).filter (fun q => isZombieState q.state)).map (mkZombieEvent snap) :=
  filterMap_ite_eq_filter_map (mkZombieEvent snap) (fun q => isZombieState q.state) (topProcs snap)

theorem filter_zombie_eq (d : AnomalyDetector) (st : WatcherState)
    (snap b prev : SystemSnapshot) (hb : st.baseline = some b)
    (hc : st.current = some prev) :
    (detectAnomalies d st snap).filter
      (fun e => decide (e.type = AnomalyType.ZOMBIE_PROCESS)) = zombieEvents snap := by
  have hcpu : (detectCpuAnomalies d st snap).filter
      (fun e => decide (e.type = AnomalyType.ZOMBIE_PROCESS)) = [] :=
    List.filter_eq_nil_iff.mpr (by
      intro e he
      simp [mem_detectCpu_type he])
  have hspike : (memorySpikeEvents d b snap).filter
      (fun e => decide (e.type = AnomalyType.ZOMBIE_PROCESS)) = [] :=
    List.filter_eq_nil_iff.mpr (by
      intro e he
      simp [mem_memorySpikeEvents_type he])
  have hleakf : (memoryLeakEvents st snap).filter
      (fun e => decide (e.type = AnomalyType.ZOMBIE_PROCESS)) = [] :=
    List.filter_eq_nil_iff.mpr (by
      intro e he
      rw [mem_memoryLeakEvents he]
      simp [mkMemoryLeakEvent])
  have hnp : (newProcessEvents snap prev).filter
      (fun e => decide (e.type = AnomalyType.ZOMBIE_PROCESS)) = [] :=
    List.filter_eq_nil_iff.mpr (by
      intro e he
      simp [mem_newProcessEvents_type he])
  have hzf : (zombieEvents snap).filter
      (fun e => decide (e.type = AnomalyType.ZOMBIE_PROCESS)) = zombieEvents snap :=
    List.filter_eq_self.mpr (by
      intro e he
      simp [mem_zombieEvents_type he])
  simp only [detectAnomalies, detectMemoryAnomalies, detectProcessAnomalies, hb, hc]
  simp only [List.filter_append]
  rw [hcpu, hspike, hleakf, hnp, hzf]
  simp

/-- C6 (amended): with a baseline AND a previous `current` snapshot present
— `_detect_process_anomalies` returns nothing at all when `state.current`
is `None`, a precondition the claim omits — and the zombie occurring exactly
once across the concatenation of the two top lists, the detector emits
exactly one ZOMBIE_PROCESS event, of severity WARNING, whose message
mentions the process name and pid. -/
theorem C6_one_zombie_event (st : WatcherState) (snap b prev : SystemSnapshot)
    (p : ProcessInfo) (hb : st.baseline = some b) (hc : st.current = some prev)
    (hz : (topProcs snap).filter (fun q => isZombieState q.state) = [p]) :
    (detectAnomalies defaultDetector st snap).filter
      (fun e => decide (e.type = AnomalyType.ZOMBIE_PROCESS)) = [mkZombieEvent snap p] ∧
    (mkZombieEvent snap p).severity = .WARNING ∧
    csSubstrL p.name.data (mkZombieEvent snap p).message.data = true ∧
    csSubstrL (toString p.pid).data (mkZombieEvent snap p).message.data = true := by
  refine ⟨?_, rfl, ?_, ?_⟩
  · rw [filter_zombie_eq defaultDetector st snap b prev hb hc, zombieEvents_eq, hz]
    rfl
  · show csSubstrL p.name.data
      ("Zombie process detected: " ++ p.name ++ " (PID " ++ toString p.pid ++ ")").data = true
    simp only [String.data_append, List.append_assoc]
    exact csSubstrL_mono _ _ _ (csSubstrL_append_left _ _)
  · show csSubstrL (toString p.pid).data
      ("Zombie process detected: " ++ p.name ++ " (PID " ++ toString p.pid ++ ")").data = true
    simp only [String.data_append, List.append_assoc]
    exact csSubstrL_mono _ _ _ (csSubstrL_mono _ _ _
      (csSubstrL_mono _ _ _ (csSubstrL_append_left _ _)))

/-- C6 witness: with baseline and previous snapshot present and one zombie
in the top cpu list, exactly the one ZOMBIE_PROCESS/WARNING event fires and
its message names the process and pid. -/
theorem C6_witness :
    withCurrentState.baseline = some (plainSnap 0 10 50 1000) ∧
    withCurrentState.current = some (plainSnap 0 10 50 1000) ∧
    ((detectAnomalies defaultDetector withCurrentState zombieSnap).filter
      (fun e => decide (e.type = AnomalyType.ZOMBIE_PROCESS)) =
        [mkZombieEvent zombieSnap zombieProc] ∧
    (mkZombieEvent zombieSnap zombieProc).severity = .WARNING ∧
    csSubstrL zombieProc.name.data (mkZombieEvent zombieSnap zombieProc).message.data = true ∧
    csSubstrL (toString zombieProc.pid).data
      (mkZombieEvent zombieSnap zombieProc).message.data = true) :=
  ⟨rfl, rfl,
    C6_one_zombie_event withCurrentState zombieSnap (plainSnap 0 10 50 1000)
      (plainSnap 0 10 50 1000) zombieProc rfl rfl (by with_unfolding_all rfl)⟩

/-- C6 counterexample: a snapshot whose top lists hold exactly one zombie
process, with baseline present but no previous `current` snapshot, produces
**zero** ZOMBIE_PROCESS events — not exactly one as the claim demands. -/
theorem C6_counterexample :
    ((topProcs zombieSnap).filter (fun q => isZombieState q.state)).length = 1 ∧
    noCurrentState.baseline = some (plainSnap 0 10 50 1000) ∧
    (detectAnomalies defaultDetector noCurrentState zombieSnap).filter
      (fun e => decide (e.type = AnomalyType.ZOMBIE_PROCESS)) = [] :=
  ⟨by with_unfolding_all rfl, rfl, by with_unfolding_all rfl⟩

end Uatu
